import Mathlib

/-!
Verification of the MoistureController repository: an Arduino soil-moisture
valve controller that exists in three variants:

* `Ino`      — `src/MoistureController.ino`: sample-triggered strategy; an
  interrupt on any change of the moisture pin re-runs `checkMoisture`, and a
  potentiometer interrupt recomputes the low/high thresholds.
* `Debounce` — `src/unnamed/part_001`: comparator edge-triggered strategy with
  a debounce tick counter gating valve opening.
* `Minimal`  — `src/unnamed/part_002`: comparator edge-triggered strategy with
  unguarded valve writes and no debounce.

Machine integers are modelled as `Nat` (all quantities involved are
non-negative and far below any overflow boundary); the single 32-bit float
multiplication in `setMoistureThreshold` is modelled exactly as IEEE-754
binary32 round-to-nearest-even.  Hardware writes to the valve pin are
recorded in a `writes` log (most recent first) so that "a hardware write is
issued" is observable in the model.
-/

namespace Ino

/-- Arduino's `map(x, in_min, in_max, out_min, out_max)`:
`(x - in_min) * (out_max - out_min) / (in_max - in_min) + out_min` in `long`
arithmetic.  In this program it is only ever called with `in_min = out_min = 0`,
`in_max = out_max = 1023` and a non-negative reading, where signed and `Nat`
arithmetic agree. -/
def arduinoMap (x inMin inMax outMin outMax : Nat) : Nat :=
  (x - inMin) * (outMax - outMin) / (inMax - inMin) + outMin

/-- Round `a / b` to the nearest integer, ties to even (IEEE-754 default
rounding, as used by the AVR soft-float multiply). -/
def roundHalfEven (a b : Nat) : Nat :=
  let q := a / b
  let r := a % b
  if 2 * r < b then q
  else if b < 2 * r then q + 1
  else if q % 2 = 0 then q else q + 1

/-- Number of bits by which the exact product numerator `p` (the real value is
`p / 2^23`) exceeds the 24-bit significand, i.e. the binade selector for
rounding to binary32.  Valid for `p < 2^34`, which covers every product
`low * 8472494` with `low ≤ 1023`. -/
def floatShift (p : Nat) : Nat :=
  if p < 16777216 then 0
  else if p < 33554432 then 1
  else if p < 67108864 then 2
  else if p < 134217728 then 3
  else if p < 268435456 then 4
  else if p < 536870912 then 5
  else if p < 1073741824 then 6
  else if p < 2147483648 then 7
  else if p < 4294967296 then 8
  else if p < 8589934592 then 9
  else 10

/-- The source computes `(int)(lowWater * levelDelta)` where
`float levelDelta = 1.01`.  The binary32 nearest float to `1.01` is
`8472494 / 2^23`; the product `lowWater * levelDelta` is rounded to the
nearest binary32 (ties to even) and then truncated toward zero by the `int`
cast.  This function models that computation exactly for `low ≤ 1023`. -/
def floatMulTrunc (low : Nat) : Nat :=
  let p := low * 8472494
  if p = 0 then 0
  else
    let k := floatShift p
    roundHalfEven p (2 ^ k) * 2 ^ k / 2 ^ 23

/-- `setMoistureThreshold` from `src/MoistureController.ino` (lines 162-173):
reads the potentiometer, normalizes it with `map(potValue, 0, 1023, 0, 1023)`,
stores it as `lowWater`, computes `highWater = (int)(lowWater * levelDelta)`
and bumps `highWater` to `lowWater + 1` whenever `highWater <= lowWater`.
Returns the stored pair `(lowWater, highWater)`. -/
def setMoistureThreshold (potValue : Nat) : Nat × Nat :=
  let lowWater := arduinoMap potValue 0 1023 0 1023
  let highWater := floatMulTrunc lowWater
  let highWater := if highWater ≤ lowWater then lowWater + 1 else highWater
  (lowWater, highWater)

/-- The observable state of the `.ino` variant's valve logic: the static
`valveOpen` flag of `checkMoisture` and the log of levels written to
`valvePin` (`true` = `HIGH` = open, `false` = `LOW` = closed), most recent
first. -/
structure InoState where
  valveOpen : Bool
  writes : List Bool
deriving DecidableEq, Repr

/-- `checkMoisture` from `src/MoistureController.ino` (lines 194-208), with
the `analogRead` result passed in as `moistureRaw` and the global thresholds
as parameters: normalizes the reading with `map(.., 0, 1023, 0, 1023)`, opens
the valve (write `HIGH`, set the flag) when the valve is closed and the level
is strictly below `lowWater`, closes it (write `LOW`, clear the flag) when the
valve is open and the level is at least `highWater`, and otherwise leaves the
state untouched. -/
def checkMoisture (lowWater highWater moistureRaw : Nat) (s : InoState) :
    InoState :=
  let moistureLevel := arduinoMap moistureRaw 0 1023 0 1023
  if ¬s.valveOpen ∧ moistureLevel < lowWater then
    { valveOpen := true, writes := true :: s.writes }
  else if s.valveOpen ∧ highWater ≤ moistureLevel then
    { valveOpen := false, writes := false :: s.writes }
  else
    s

end Ino

/-- Which comparator edge an `analogComparator.enableInterrupt` call is
configured for (`FALLING` / `RISING` constants in the source). -/
inductive CompEdge where
  | rising
  | falling
deriving DecidableEq, Repr

/-- Which interrupt handler is installed: the "level low" handler or the
"level high" handler of the respective variant. -/
inductive Handler where
  | lowH
  | highH
deriving DecidableEq, Repr

/-- Comparator wiring shared by the two comparator variants:
`analogComparator.setOn(AIN0, AIN1)` with the moisture sensor on `AIN0` (the
non-inverting input) and the potentiometer on `AIN1`, so the comparator output
is high exactly when the moisture reading is above the reference ("wet").  A
`FALLING` output edge is therefore the wet-to-dry crossing and a `RISING`
output edge the dry-to-wet crossing. -/
def edgeWatchesWetToDry : CompEdge → Bool
  | .falling => true
  | .rising => false

namespace Debounce

/-- `DEBOUNCE_DELAY_TIME` from `src/unnamed/part_001` (line 47):
`(1ULL * 60ULL) / CLOCK_SECONDS_PER_TICK` with `CLOCK_SECONDS_PER_TICK = 8`,
i.e. sixty seconds expressed in 8-second sleep ticks, truncated. -/
def DEBOUNCE_DELAY_TIME : Nat := 1 * 60 / 8

/-- State of the `part_001` variant: the `valveOpen` flag, the
`debounceTimer` tick counter, the currently armed comparator interrupt
(handler and edge; `none` before the first `enableInterrupt`), and the log of
levels written to `valvePin`, most recent first. -/
structure DState where
  valveOpen : Bool
  debounceTimer : Nat
  armed : Option (Handler × CompEdge)
  writes : List Bool
deriving DecidableEq, Repr

/-- Global state at program start in `part_001`: `valveOpen = true` (line 54,
"Set valve open to force close in setup()"), `debounceTimer = 0` (line 56),
no interrupt armed, no write issued yet. -/
def initState : DState :=
  { valveOpen := true, debounceTimer := 0, armed := none, writes := [] }

/-- `openWaterValve` from `src/unnamed/part_001` (lines 79-87): only when the
valve is not already open and `debounceTimer == 0` does it write `HIGH` and
set `valveOpen`; otherwise it does nothing. -/
def openWaterValve (s : DState) : DState :=
  if ¬s.valveOpen then
    if s.debounceTimer = 0 then
      { s with valveOpen := true, writes := true :: s.writes }
    else s
  else s

/-- `closeWaterValve` from `src/unnamed/part_001` (lines 104-111): only when
the valve is open does it write `LOW`, clear `valveOpen` and reset
`debounceTimer` to `DEBOUNCE_DELAY_TIME`; otherwise it does nothing. -/
def closeWaterValve (s : DState) : DState :=
  if s.valveOpen then
    { s with
      valveOpen := false
      debounceTimer := DEBOUNCE_DELAY_TIME
      writes := false :: s.writes }
  else s

/-- `moistureLevelLowInterrupt` from `src/unnamed/part_001` (lines 250-254):
the handler armed on the `FALLING` comparator edge (wet-to-dry crossing).  It
re-arms `moistureLevelHighInterrupt` on `RISING`, then calls
`openWaterValve`. -/
def moistureLevelLowInterrupt (s : DState) : DState :=
  openWaterValve { s with armed := some (.highH, .rising) }

/-- `moistureLevelHighInterrupt` from `src/unnamed/part_001` (lines 256-260):
the handler armed on the `RISING` comparator edge (dry-to-wet crossing).  It
calls `closeWaterValve`, then re-arms `moistureLevelLowInterrupt` on
`FALLING`. -/
def moistureLevelHighInterrupt (s : DState) : DState :=
  { closeWaterValve s with armed := some (.lowH, .falling) }

/-- `enableMoistureLevelInterrupts` from `src/unnamed/part_001`
(lines 125-136): the startup probe.  `wet` is the result of
`analogComparator.waitComp(1)` (comparator output high, i.e. moisture above
the reference).  If wet, call `closeWaterValve` and arm
`moistureLevelLowInterrupt` on `FALLING`; if dry, call `openWaterValve` and
arm `moistureLevelHighInterrupt` on `RISING`. -/
def enableMoistureLevelInterrupts (wet : Bool) (s : DState) : DState :=
  if wet then
    { closeWaterValve s with armed := some (.lowH, .falling) }
  else
    { openWaterValve s with armed := some (.highH, .rising) }

/-- `setup` from `src/unnamed/part_001` (lines 155-185), restricted to the
state-bearing operations: starting from `initState` it calls
`closeWaterValve()` (line 175) and then `enableMoistureLevelInterrupts()`
(line 178) with the probed comparator level `wet`. -/
def setup (wet : Bool) : DState :=
  enableMoistureLevelInterrupts wet (closeWaterValve initState)

/-- One pass of `loop` from `src/unnamed/part_001` (lines 205-231) after the
8-second `powerDown` returns: decrement `debounceTimer` when it is
positive. -/
def loopTick (s : DState) : DState :=
  if s.debounceTimer > 0 then { s with debounceTimer := s.debounceTimer - 1 }
  else s

/-- `k` consecutive wake-cycle passes of `loop`. -/
def loopTicks : Nat → DState → DState
  | 0, s => s
  | k + 1, s => loopTicks k (loopTick s)

/-- Events that can reach the valve state after setup: an `openWaterValve`
attempt (from `moistureLevelLowInterrupt` or the probe), a `closeWaterValve`
call, or a wake-cycle tick of `loop`. -/
inductive Ev where
  | openAttempt
  | closeCall
  | tick
deriving DecidableEq, Repr

/-- Apply one event to the state. -/
def stepEv : Ev → DState → DState
  | .openAttempt, s => openWaterValve s
  | .closeCall, s => closeWaterValve s
  | .tick, s => loopTick s

/-- Run a sequence of events, first element first. -/
def runEvs : List Ev → DState → DState
  | [], s => s
  | e :: es, s => runEvs es (stepEv e s)

/-- Number of wake-cycle ticks in an event sequence. -/
def tickCount : List Ev → Nat
  | [] => 0
  | Ev.tick :: es => tickCount es + 1
  | Ev.openAttempt :: es => tickCount es
  | Ev.closeCall :: es => tickCount es

end Debounce

namespace Minimal

/-- State of the `part_002` variant.  Outside `DEBUG` builds this variant
keeps no `valveOpen` flag at all; the observable state is the valve pin level
(`true` = `HIGH`) together with the armed comparator interrupt and the log of
levels written to `valvePin`, most recent first. -/
structure MState where
  pin : Bool
  armed : Option (Handler × CompEdge)
  writes : List Bool
deriving DecidableEq, Repr

/-- `openWaterValve` from `src/unnamed/part_002` (lines 98-104): it
unconditionally executes `digitalWrite(valvePin, HIGH)` — there is no guard
on the current state. -/
def openWaterValve (s : MState) : MState :=
  { s with pin := true, writes := true :: s.writes }

/-- `closeWaterValve` from `src/unnamed/part_002` (lines 75-81): it
unconditionally executes `digitalWrite(valvePin, LOW)`. -/
def closeWaterValve (s : MState) : MState :=
  { s with pin := false, writes := false :: s.writes }

/-- `moistureLowInterrupt` from `src/unnamed/part_002` (lines 185-189): calls
`openWaterValve`, then arms `moistureHighInterrupt` on the `FALLING` edge. -/
def moistureLowInterrupt (s : MState) : MState :=
  { openWaterValve s with armed := some (.highH, .falling) }

/-- `moistureHighInterrupt` from `src/unnamed/part_002` (lines 191-195):
calls `closeWaterValve`, then arms `moistureLowInterrupt` on the `RISING`
edge. -/
def moistureHighInterrupt (s : MState) : MState :=
  { closeWaterValve s with armed := some (.lowH, .rising) }

/-- State after `setup` from `src/unnamed/part_002` (lines 124-151):
`digitalWrite(valvePin, LOW)` (line 144), comparator on, then
`enableInterrupt(moistureLowInterrupt, FALLING)` (line 147). -/
def setupState : MState :=
  { pin := false, armed := some (.lowH, .falling), writes := [false] }

end Minimal

/-- The state-relevant operations a `setup()` body performs, in source order,
used to check initialization ordering across the three variants. -/
inductive SetupOp where
  | disableInts
  | pinModeOp
  | armInterrupt
  | valveWrite (lvl : Bool)
  | sensorEval
  | comparatorOn
  | enableInts
deriving DecidableEq, Repr

/-- Operation sequence of `setup` in `src/MoistureController.ino`
(lines 77-115): `noInterrupts`; `pinMode(potPin)`;
`attachInterrupt(potPin, setMoistureThreshold, CHANGE)`; `pinMode(valvePin)`;
`digitalWrite(valvePin, LOW)`; `pinMode(moistureSensorPin)`;
`attachInterrupt(moistureSensorPin, checkMoisture, CHANGE)`;
`setMoistureThreshold()`; `checkMoisture()`; `interrupts`. -/
def inoSetupTrace : List SetupOp :=
  [.disableInts, .pinModeOp, .armInterrupt, .pinModeOp, .valveWrite false,
   .pinModeOp, .armInterrupt, .sensorEval, .sensorEval, .enableInts]

/-- Operation sequence of `setup` in `src/unnamed/part_001` (lines 155-185):
`noInterrupts`; `pinMode(valvePin)`; `closeWaterValve()` (a real transition,
since `valveOpen` starts `true`, hence one `LOW` write);
`analogComparator.setOn`; `enableMoistureLevelInterrupts()` (a `waitComp`
probe followed by an `enableInterrupt`; its internal valve call issues no
write, the close branch because the valve is already closed and the open
branch because `debounceTimer` was just set); `interrupts`. -/
def debounceSetupTrace : List SetupOp :=
  [.disableInts, .pinModeOp, .valveWrite false, .comparatorOn, .sensorEval,
   .armInterrupt, .enableInts]

/-- Operation sequence of `setup` in `src/unnamed/part_002` (lines 124-151):
`noInterrupts`; `pinMode(valvePin)`; `digitalWrite(valvePin, LOW)`;
`analogComparator.setOn`; `enableInterrupt(moistureLowInterrupt, FALLING)`;
`interrupts`. -/
def minimalSetupTrace : List SetupOp :=
  [.disableInts, .pinModeOp, .valveWrite false, .comparatorOn, .armInterrupt,
   .enableInts]

/-- Helper: scans a setup trace and checks that every operation satisfying
`critical` is preceded by a `LOW` write to the valve pin; `seen` records
whether such a write has occurred already. -/
def lowWriteFirstAux (critical : SetupOp → Bool) : List SetupOp → Bool → Bool
  | [], _ => true
  | op :: rest, seen =>
    if critical op then seen && lowWriteFirstAux critical rest seen
    else if op = SetupOp.valveWrite false then lowWriteFirstAux critical rest true
    else lowWriteFirstAux critical rest seen

/-- The valve is forced low before any sensor evaluation or interrupt-arming
operation in the trace. -/
def closedBeforeArmAndEval (tr : List SetupOp) : Bool :=
  lowWriteFirstAux
    (fun op => op = SetupOp.armInterrupt || op = SetupOp.sensorEval) tr false

/-- The valve is forced low before any sensor evaluation and before global
interrupts are re-enabled (so no armed handler can run before the valve is
closed). -/
def closedBeforeEvalAndEnable (tr : List SetupOp) : Bool :=
  lowWriteFirstAux
    (fun op => op = SetupOp.sensorEval || op = SetupOp.enableInts) tr false

/-! ### Helper lemmas -/

theorem arduinoMap_id (m : Nat) : Ino.arduinoMap m 0 1023 0 1023 = m := by
  show (m - 0) * (1023 - 0) / (1023 - 0) + 0 = m
  simp

theorem openWaterValve_noop (s : Debounce.DState)
    (h : s.debounceTimer ≠ 0) : Debounce.openWaterValve s = s := by
  simp [Debounce.openWaterValve, h]

theorem openWaterValve_opens (s : Debounce.DState) (h1 : s.valveOpen = false)
    (h2 : s.debounceTimer = 0) :
    Debounce.openWaterValve s
      = { s with valveOpen := true, writes := true :: s.writes } := by
  simp [Debounce.openWaterValve, h1, h2]

theorem closeWaterValve_noop (s : Debounce.DState)
    (h : s.valveOpen = false) : Debounce.closeWaterValve s = s := by
  simp [Debounce.closeWaterValve, h]

theorem closeWaterValve_closes (s : Debounce.DState)
    (h : s.valveOpen = true) :
    Debounce.closeWaterValve s
      = { s with
          valveOpen := false
          debounceTimer := Debounce.DEBOUNCE_DELAY_TIME
          writes := false :: s.writes } := by
  simp [Debounce.closeWaterValve, h]

theorem loopTick_timer (s : Debounce.DState) :
    Debounce.loopTick s
      = { s with debounceTimer := s.debounceTimer - 1 } := by
  unfold Debounce.loopTick
  split
  · rfl
  · have h0 : s.debounceTimer = 0 := by omega
    cases s
    simp_all

theorem loopTicks_timer (k : Nat) : ∀ s : Debounce.DState,
    Debounce.loopTicks k s
      = { s with debounceTimer := s.debounceTimer - k } := by
  induction k with
  | zero => intro s; rfl
  | succ k ih =>
    intro s
    show Debounce.loopTicks k (Debounce.loopTick s) = _
    rw [loopTick_timer, ih]
    have h : s.debounceTimer - 1 - k = s.debounceTimer - (k + 1) := by omega
    rw [h]

theorem runEvs_stays_closed (es : List Debounce.Ev) : ∀ s : Debounce.DState,
    s.valveOpen = false → Debounce.tickCount es < s.debounceTimer →
    (Debounce.runEvs es s).valveOpen = false := by
  induction es with
  | nil => intro s h _; exact h
  | cons e es ih =>
    intro s hclosed hlt
    cases e with
    | openAttempt =>
      have hne : s.debounceTimer ≠ 0 := by
        have hc : Debounce.tickCount (Debounce.Ev.openAttempt :: es)
            = Debounce.tickCount es := rfl
        omega
      show (Debounce.runEvs es (Debounce.openWaterValve s)).valveOpen = false
      rw [openWaterValve_noop s hne]
      exact ih s hclosed hlt
    | closeCall =>
      show (Debounce.runEvs es (Debounce.closeWaterValve s)).valveOpen = false
      rw [closeWaterValve_noop s hclosed]
      exact ih s hclosed hlt
    | tick =>
      show (Debounce.runEvs es (Debounce.loopTick s)).valveOpen = false
      rw [loopTick_timer]
      apply ih
      · exact hclosed
      · have hc : Debounce.tickCount (Debounce.Ev.tick :: es)
            = Debounce.tickCount es + 1 := rfl
        show Debounce.tickCount es < s.debounceTimer - 1
        omega



/-! ### Claim theorems -/

/-- C1: the claim states that at initialization, when the synchronous probe
reads "dry", the Evaluator force-opens the valve bypassing the debounce gate,
leaving the system Open with Rising armed.  Evaluating the code at that input
shows otherwise: `setup` first performs the forced close (which arms the
debounce counter), so the probe's `openWaterValve()` call is suppressed by the
`debounceTimer == 0` guard and the system is left Closed (the only write is
the closing `LOW`), with the Rising interrupt armed as claimed. -/
theorem debounce_setup_dry_leaves_valve_closed :
    (Debounce.setup false).valveOpen = false ∧
    (Debounce.setup false).debounceTimer = Debounce.DEBOUNCE_DELAY_TIME ∧
    (Debounce.setup false).armed = some (Handler.highH, CompEdge.rising) ∧
    (Debounce.setup false).writes = [false] := by decide

/-- C2: after any `closeWaterValve` from the Open state, the debounce counter
holds the full delay and every `openWaterValve` attempt while the counter is
nonzero is a no-op (state unchanged, hence no hardware write); after the
counter reaches zero through wake-cycle ticks, an `openWaterValve` on a
Closed state issues the `HIGH` write and opens the valve. -/
theorem open_gated_until_debounce_elapses : ∀ s : Debounce.DState,
    s.valveOpen = true →
    ((Debounce.closeWaterValve s).debounceTimer
        = Debounce.DEBOUNCE_DELAY_TIME ∧
      (Debounce.closeWaterValve s).valveOpen = false) ∧
    (∀ t : Debounce.DState, t.debounceTimer ≠ 0 →
      Debounce.openWaterValve t = t) ∧
    (∀ k, k < Debounce.DEBOUNCE_DELAY_TIME →
      Debounce.openWaterValve
          (Debounce.loopTicks k (Debounce.closeWaterValve s))
        = Debounce.loopTicks k (Debounce.closeWaterValve s)) ∧
    ((Debounce.loopTicks Debounce.DEBOUNCE_DELAY_TIME
        (Debounce.closeWaterValve s)).debounceTimer = 0) ∧
    (∀ t : Debounce.DState, t.valveOpen = false → t.debounceTimer = 0 →
      Debounce.openWaterValve t
        = { t with valveOpen := true, writes := true :: t.writes }) := by
  intro s hs
  refine ⟨⟨?_, ?_⟩, ?_, ?_, ?_, ?_⟩
  · rw [closeWaterValve_closes s hs]
  · rw [closeWaterValve_closes s hs]
  · intro t ht
    exact openWaterValve_noop t ht
  · intro k hk
    apply openWaterValve_noop
    rw [loopTicks_timer, closeWaterValve_closes s hs]
    show Debounce.DEBOUNCE_DELAY_TIME - k ≠ 0
    omega
  · rw [loopTicks_timer, closeWaterValve_closes s hs]
    show Debounce.DEBOUNCE_DELAY_TIME - Debounce.DEBOUNCE_DELAY_TIME = 0
    omega
  · intro t h1 h2
    exact openWaterValve_opens t h1 h2

/-- Witness for C2 at a concrete open state with a dirty counter. -/
theorem open_gated_until_debounce_elapses_witness :
    (Debounce.closeWaterValve
        { valveOpen := true, debounceTimer := 0, armed := none,
          writes := [] }).debounceTimer = Debounce.DEBOUNCE_DELAY_TIME ∧
    Debounce.openWaterValve
        (Debounce.loopTicks 3 (Debounce.closeWaterValve
          { valveOpen := true, debounceTimer := 0, armed := none,
            writes := [] }))
      = Debounce.loopTicks 3 (Debounce.closeWaterValve
          { valveOpen := true, debounceTimer := 0, armed := none,
            writes := [] }) :=
  ⟨(open_gated_until_debounce_elapses
      { valveOpen := true, debounceTimer := 0, armed := none, writes := [] }
      rfl).1.1,
   (open_gated_until_debounce_elapses
      { valveOpen := true, debounceTimer := 0, armed := none, writes := [] }
      rfl).2.2.1 3 (by decide)⟩

/-- C3 counterexample: in the `part_002` variant, `openWaterValve` writes the
pin unconditionally, so calling it twice in succession from the post-setup
state (valve closed) issues two hardware writes, not exactly one, and the
second write occurs without any state transition. -/
theorem minimal_double_open_issues_two_writes :
    (Minimal.openWaterValve (Minimal.openWaterValve Minimal.setupState)).writes
      = true :: true :: Minimal.setupState.writes ∧
    ¬((Minimal.openWaterValve
          (Minimal.openWaterValve Minimal.setupState)).writes.length
        = Minimal.setupState.writes.length + 1) := by decide

/-- C3 amended: in the `part_001` variant and the `.ino` variant a hardware
write is issued exactly on an actual Open/Closed transition of the tracked
state (the write count grows by one when the `valveOpen` flag changes and is
unchanged otherwise), `openWaterValve` and `closeWaterValve` are idempotent
as state transformers, and a double `openWaterValve` from a Closed state with
an expired debounce counter issues exactly one `HIGH` write. -/
theorem writes_only_on_transition :
    (∀ s : Debounce.DState,
      Debounce.openWaterValve (Debounce.openWaterValve s)
        = Debounce.openWaterValve s) ∧
    (∀ s : Debounce.DState,
      Debounce.closeWaterValve (Debounce.closeWaterValve s)
        = Debounce.closeWaterValve s) ∧
    (∀ s : Debounce.DState,
      (Debounce.openWaterValve s).writes.length = s.writes.length +
        (if (Debounce.openWaterValve s).valveOpen = s.valveOpen
          then 0 else 1)) ∧
    (∀ s : Debounce.DState,
      (Debounce.closeWaterValve s).writes.length = s.writes.length +
        (if (Debounce.closeWaterValve s).valveOpen = s.valveOpen
          then 0 else 1)) ∧
    (∀ lowW highW m : Nat, ∀ s : Ino.InoState,
      (Ino.checkMoisture lowW highW m s).writes.length = s.writes.length +
        (if (Ino.checkMoisture lowW highW m s).valveOpen = s.valveOpen
          then 0 else 1)) ∧
    (∀ s : Debounce.DState, s.valveOpen = false → s.debounceTimer = 0 →
      (Debounce.openWaterValve (Debounce.openWaterValve s)).writes
        = true :: s.writes) := by
  refine ⟨?_, ?_, ?_, ?_, ?_, ?_⟩
  · intro s
    rcases s with ⟨v, d, a, w⟩
    cases v
    · by_cases hd : d = 0 <;> simp [Debounce.openWaterValve, hd]
    · simp [Debounce.openWaterValve]
  · intro s
    rcases s with ⟨v, d, a, w⟩
    cases v <;> simp [Debounce.closeWaterValve]
  · intro s
    rcases s with ⟨v, d, a, w⟩
    cases v
    · by_cases hd : d = 0 <;> simp [Debounce.openWaterValve, hd]
    · simp [Debounce.openWaterValve]
  · intro s
    rcases s with ⟨v, d, a, w⟩
    cases v <;> simp [Debounce.closeWaterValve]
  · intro lowW highW m s
    rcases s with ⟨v, w⟩
    cases v
    · by_cases h1 : Ino.arduinoMap m 0 1023 0 1023 < lowW <;>
        simp [Ino.checkMoisture, h1]
    · by_cases h2 : highW ≤ Ino.arduinoMap m 0 1023 0 1023 <;>
        simp [Ino.checkMoisture, h2]
  · intro s h1 h2
    rw [openWaterValve_opens s h1 h2]
    simp [Debounce.openWaterValve]

/-- Witness for C3 amended at a concrete closed state with expired counter. -/
theorem writes_only_on_transition_witness :
    ({ valveOpen := false, debounceTimer := 0, armed := none,
        writes := [] } : Debounce.DState).valveOpen = false ∧
    (Debounce.openWaterValve (Debounce.openWaterValve
        { valveOpen := false, debounceTimer := 0, armed := none,
          writes := [] })).writes = [true] :=
  ⟨rfl,
   writes_only_on_transition.2.2.2.2.2
     { valveOpen := false, debounceTimer := 0, armed := none, writes := [] }
     rfl rfl⟩

set_option maxRecDepth 4000 in
/-- C4: for every raw reference reading in 0..1023, after
`setMoistureThreshold` the stored pair satisfies `highWater > lowWater`
strictly, and `highWater` is exactly `max (lowWater + 1)
(lowWater * 101 / 100)`: the reading rescaled by the identity `map`, inflated
by the binary32 hysteresis factor 1.01 rounded down, floored to
`lowWater + 1` whenever that rounded value does not exceed `lowWater`.  (The
equality of the binary32 computation with the exact
`⌊lowWater * 101 / 100⌋` over the whole sensor range is part of what is
checked.) -/
theorem threshold_update_high_gt_low : ∀ potValue : Nat, potValue < 1024 →
    (Ino.setMoistureThreshold potValue).1
        < (Ino.setMoistureThreshold potValue).2 ∧
    (Ino.setMoistureThreshold potValue).2
      = max ((Ino.setMoistureThreshold potValue).1 + 1)
          ((Ino.setMoistureThreshold potValue).1 * 101 / 100) := by decide

/-- Witness for C4 at the mid-scale reading 512. -/
theorem threshold_update_high_gt_low_witness :
    (512 : Nat) < 1024 ∧
    ((Ino.setMoistureThreshold 512).1 < (Ino.setMoistureThreshold 512).2 ∧
     (Ino.setMoistureThreshold 512).2
       = max ((Ino.setMoistureThreshold 512).1 + 1)
           ((Ino.setMoistureThreshold 512).1 * 101 / 100)) :=
  ⟨by decide, threshold_update_high_gt_low 512 (by decide)⟩

/-- C5: evaluating `part_002` at its boot state.  `setup` arms
`moistureLowInterrupt` on `FALLING`; when that falling event is handled, the
handler re-arms `moistureHighInterrupt` again on `FALLING` — the same edge
direction, not the opposite one required by the claim (and the handler whose
job is to react to the level becoming high is thereby armed on the
wet-to-dry edge).  The `part_001` handlers do toggle: its `FALLING` handler
arms `RISING` and vice versa. -/
theorem minimal_falling_handler_rearms_falling :
    Minimal.setupState.armed = some (Handler.lowH, CompEdge.falling) ∧
    (Minimal.moistureLowInterrupt Minimal.setupState).armed
      = some (Handler.highH, CompEdge.falling) ∧
    edgeWatchesWetToDry CompEdge.falling = true ∧
    (∀ s : Debounce.DState,
      (Debounce.moistureLevelLowInterrupt s).armed
        = some (Handler.highH, CompEdge.rising)) ∧
    (∀ s : Debounce.DState,
      (Debounce.moistureLevelHighInterrupt s).armed
        = some (Handler.lowH, CompEdge.falling)) := by
  refine ⟨rfl, rfl, rfl, ?_, ?_⟩
  · intro s
    rcases s with ⟨v, d, a, w⟩
    cases v
    · by_cases hd : d = 0 <;>
        simp [Debounce.moistureLevelLowInterrupt, Debounce.openWaterValve, hd]
    · simp [Debounce.moistureLevelLowInterrupt, Debounce.openWaterValve]
  · intro s
    rfl

/-- C6: the startup probe of `part_001`, on a "wet" comparator reading
(moisture above the reference), leaves the valve Closed and arms the
interrupt on the comparator edge that watches the wet-to-dry crossing (the
`FALLING` constant; the claim names this direction "Rising" following the
naming of section 4.4 of the design, under which the "rising" event is the
wet-side-to-dry-side crossing). -/
theorem startup_probe_wet_closed_arms_wet_to_dry : ∀ s : Debounce.DState,
    (Debounce.enableMoistureLevelInterrupts true s).valveOpen = false ∧
    (Debounce.enableMoistureLevelInterrupts true s).armed
      = some (Handler.lowH, CompEdge.falling) ∧
    edgeWatchesWetToDry CompEdge.falling = true := by
  intro s
  rcases s with ⟨v, d, a, w⟩
  cases v <;>
    simp [Debounce.enableMoistureLevelInterrupts, Debounce.closeWaterValve,
      edgeWatchesWetToDry]

/-- C7: on each change notification the `.ino` evaluator applies exactly the
hysteresis rule to the current sample and thresholds: Closed and sample
strictly below `lowWater` opens (one `HIGH` write), Open and sample at least
`highWater` closes (one `LOW` write), every other case (including samples
inside the band) leaves state and write log untouched.  The sample enters
the comparison unchanged because `map(x, 0, 1023, 0, 1023)` is the
identity. -/
theorem checkMoisture_threshold_rule : ∀ lowW highW m : Nat,
    ∀ s : Ino.InoState,
    (s.valveOpen = false → m < lowW →
      Ino.checkMoisture lowW highW m s
        = { valveOpen := true, writes := true :: s.writes }) ∧
    (s.valveOpen = true → highW ≤ m →
      Ino.checkMoisture lowW highW m s
        = { valveOpen := false, writes := false :: s.writes }) ∧
    (¬(s.valveOpen = false ∧ m < lowW) →
      ¬(s.valveOpen = true ∧ highW ≤ m) →
      Ino.checkMoisture lowW highW m s = s) := by
  intro lowW highW m s
  rcases s with ⟨v, w⟩
  refine ⟨?_, ?_, ?_⟩
  · intro hv hm
    subst hv
    simp [Ino.checkMoisture, arduinoMap_id, hm]
  · intro hv hm
    subst hv
    simp [Ino.checkMoisture, arduinoMap_id, hm]
  · intro h1 h2
    cases v
    · have hm : ¬(m < lowW) := fun hc => h1 ⟨rfl, hc⟩
      simp [Ino.checkMoisture, arduinoMap_id, hm]
    · have hm : ¬(highW ≤ m) := fun hc => h2 ⟨rfl, hc⟩
      simp [Ino.checkMoisture, arduinoMap_id, hm]

/-- Witness for C7: scenario thresholds low 300, high 303; a closed valve
and sample 250 opens. -/
theorem checkMoisture_threshold_rule_witness :
    Ino.checkMoisture 300 303 250 { valveOpen := false, writes := [] }
      = { valveOpen := true, writes := [true] } :=
  (checkMoisture_threshold_rule 300 303 250
    { valveOpen := false, writes := [] }).1 rfl (by decide)

/-- C8 counterexample: in the `.ino` variant the claim fails as stated — the
potentiometer interrupt is attached (an interrupt-arming operation) at
line 97, before the `digitalWrite(valvePin, LOW)` of line 101, so the valve
is not forced low before every arming operation. -/
theorem ino_setup_arms_pot_before_valve_low :
    closedBeforeArmAndEval inoSetupTrace = false ∧
    inoSetupTrace.take 5
      = [SetupOp.disableInts, SetupOp.pinModeOp, SetupOp.armInterrupt,
         SetupOp.pinModeOp, SetupOp.valveWrite false] := by decide

/-- C8 amended: in the two comparator variants the valve is forced low before
any sensor evaluation or interrupt arming; in the `.ino` variant the
potentiometer interrupt is attached first, but the forced low write still
precedes every sensor evaluation and the global interrupt enable, so (with
interrupts disabled throughout `setup`) no evaluation and no handler can run
before the valve is Closed. -/
theorem valve_low_before_eval_and_enable :
    closedBeforeArmAndEval debounceSetupTrace = true ∧
    closedBeforeArmAndEval minimalSetupTrace = true ∧
    closedBeforeEvalAndEnable inoSetupTrace = true ∧
    closedBeforeEvalAndEnable debounceSetupTrace = true ∧
    closedBeforeEvalAndEnable minimalSetupTrace = true := by decide

/-- C9: in `part_001`, `valveOpen` starts `true`, so the forced
`closeWaterValve()` in `setup` performs a real transition (one `LOW` write)
and arms the debounce counter with the full `DEBOUNCE_DELAY_TIME` before the
startup probe runs; consequently, whichever side the probe reads, the
post-`setup` state is Closed with a full counter, and no sequence of
open attempts, close calls and wake-cycle ticks containing fewer than
`DEBOUNCE_DELAY_TIME` ticks can open the valve. -/
theorem boot_forced_close_arms_debounce :
    ((Debounce.closeWaterValve Debounce.initState).valveOpen = false ∧
     (Debounce.closeWaterValve Debounce.initState).debounceTimer
        = Debounce.DEBOUNCE_DELAY_TIME ∧
     (Debounce.closeWaterValve Debounce.initState).writes = [false]) ∧
    (∀ wet : Bool,
      (Debounce.setup wet).valveOpen = false ∧
      (Debounce.setup wet).debounceTimer = Debounce.DEBOUNCE_DELAY_TIME) ∧
    (∀ wet : Bool, ∀ es : List Debounce.Ev,
      Debounce.tickCount es < Debounce.DEBOUNCE_DELAY_TIME →
      (Debounce.runEvs es (Debounce.setup wet)).valveOpen = false) := by
  refine ⟨by decide, by decide, ?_⟩
  intro wet es hlt
  apply runEvs_stays_closed
  · cases wet <;> decide
  · have h7 : (Debounce.setup wet).debounceTimer
        = Debounce.DEBOUNCE_DELAY_TIME := by cases wet <;> decide
    rw [h7]
    exact hlt

/-- Witness for C9: a dry boot followed by three ticks and an open attempt
leaves the valve closed. -/
theorem boot_forced_close_arms_debounce_witness :
    Debounce.tickCount
        [Debounce.Ev.tick, Debounce.Ev.tick, Debounce.Ev.tick,
         Debounce.Ev.openAttempt] < Debounce.DEBOUNCE_DELAY_TIME ∧
    (Debounce.runEvs
        [Debounce.Ev.tick, Debounce.Ev.tick, Debounce.Ev.tick,
         Debounce.Ev.openAttempt]
        (Debounce.setup false)).valveOpen = false :=
  ⟨by decide,
   boot_forced_close_arms_debounce.2.2 false
     [Debounce.Ev.tick, Debounce.Ev.tick, Debounce.Ev.tick,
      Debounce.Ev.openAttempt] (by decide)⟩

/-- C10: in the `.ino` variant, opening is not gated by any debounce state:
the state of `checkMoisture` carries no counter, and from every Closed state
(however it was reached, in particular immediately after a close) a sample
strictly below `lowWater` opens the valve at once, issuing the `HIGH`
write. -/
theorem checkMoisture_open_not_debounced : ∀ lowW highW m : Nat,
    ∀ s : Ino.InoState, s.valveOpen = false → m < lowW →
    (Ino.checkMoisture lowW highW m s).valveOpen = true ∧
    (Ino.checkMoisture lowW highW m s).writes = true :: s.writes := by
  intro lowW highW m s hv hm
  rcases s with ⟨v, w⟩
  cases hv
  constructor <;> simp [Ino.checkMoisture, arduinoMap_id, hm]

/-- Witness for C10: a state closed by the immediately preceding sample 310
reopens at once on sample 200. -/
theorem checkMoisture_open_not_debounced_witness :
    (Ino.checkMoisture 300 303 310
        { valveOpen := true, writes := [true] }).valveOpen = false ∧
    (Ino.checkMoisture 300 303 200
        (Ino.checkMoisture 300 303 310
          { valveOpen := true, writes := [true] })).valveOpen = true ∧
    (Ino.checkMoisture 300 303 200
        (Ino.checkMoisture 300 303 310
          { valveOpen := true, writes := [true] })).writes
      = true :: false :: [true] :=
  ⟨by decide,
   (checkMoisture_open_not_debounced 300 303 200
      (Ino.checkMoisture 300 303 310 { valveOpen := true, writes := [true] })
      (by decide) (by decide)).1,
   (checkMoisture_open_not_debounced 300 303 200
      (Ino.checkMoisture 300 303 310 { valveOpen := true, writes := [true] })
      (by decide) (by decide)).2⟩
